import Mathlib

/-!
Shallow embedding of `phidget-rs/src/devices/temperature_sensor.rs`.

The module is a binding layer over the vendor library `phidget_sys` (`ffi`).
Vendor calls are modelled as oracle inputs: each call is represented by the
return code it produces and, for getters, the value it writes into the
out-parameter.  Heap-allocated callback contexts (`Box::into_raw` of a
double-boxed closure) are modelled by an allocator state handing out fresh
non-null addresses; `crate::drop_cb` appends the released address to a `freed`
trace, so double frees and frees of unallocated pointers are visible in the
model.  Raw pointers are natural-number addresses with `0` as the null
pointer.
-/

namespace PhidgetRs

/-- A raw C pointer (`*mut c_void`, channel handles): a natural address,
`0` being the null pointer. -/
abbrev Ptr : Type := Nat

/-- Carrier for the C `double` values the wrapper passes through.  The module
performs no arithmetic, comparison or conditioning on any temperature value —
it only moves them between the vendor out-parameter and the caller — so the
carrier type is opaque to it; it is modelled as `Int`. -/
abbrev f64 : Type := Int

/-- Alias for `PhidgetTemperatureSensor_ThermocoupleType`: a C enum value
(J = 1, K = 2, E = 3, T = 4), modelled as an integer. -/
abbrev ThermocoupleType : Type := Int

/-- One vendor-library call that writes a value of type `α` into an
out-parameter: its C return code and the value the call left there. -/
structure FfiCall (α : Type) where
  code : Int
  out : α
deriving Repr

/-- Modelled from the spec: error code translation is an external collaborator
("error code translation … treated as external collaborators accessed through
a fixed C-style function-pointer interface"); the missing `ReturnCode::result`
maps the vendor return code `0` (`EPHIDGET_OK`) to success and any nonzero
code to an error carrying that code. -/
def ReturnCode.result (code : Int) : Except Int Unit :=
  if code = 0 then Except.ok () else Except.error code

/-- The allocator for callback contexts: `next` is the next fresh non-null
address (all addresses below `next` and at least `1` have been handed out),
`freed` is the trace of addresses released so far, in order. -/
structure Heap where
  next : Ptr
  freed : List Ptr
deriving Repr, DecidableEq

/-- The initial allocator: nothing allocated, nothing freed. -/
def Heap.init : Heap := ⟨1, []⟩

/-- Models `Box::into_raw (Box::new (Box::new cb))`: hands out the next fresh
address. -/
def Heap.alloc (h : Heap) : Ptr × Heap :=
  (h.next, { h with next := h.next + 1 })

/-- Modelled from the spec: `crate::drop_cb` is repository code outside this
module (the "callback lifetime and ownership semantics" handling the spec
assigns to the wrapper); it reconstitutes the double-boxed callback context
from the raw pointer, if one is present, and drops it — i.e. frees that one
address. -/
def drop_cb (h : Heap) (p : Option Ptr) : Heap :=
  match p with
  | none => h
  | some ctx => { h with freed := h.freed ++ [ctx] }

/-- Struct `TemperatureSensor` (`pub struct TemperatureSensor`): the channel
handle for the phidget22 library and the three optional double-boxed callback
context pointers. -/
structure TemperatureSensor where
  chan : Ptr
  cb : Option Ptr
  attach_cb : Option Ptr
  detach_cb : Option Ptr
deriving Repr, DecidableEq

namespace TemperatureSensor

/-- Conversion `From<TemperatureSensorHandle> for TemperatureSensor` (named
`from_handle` because `from` is reserved in Lean): wraps a raw channel handle
with every callback context field `None`. -/
def from_handle (chan : Ptr) : TemperatureSensor :=
  { chan := chan, cb := none, attach_cb := none, detach_cb := none }

/-- Constructor `TemperatureSensor::new`: lets `PhidgetTemperatureSensor_create` write a
channel handle into the out-parameter (modelled as the argument `chan`) and
wraps it via `From`. -/
def new (chan : Ptr) : TemperatureSensor :=
  from_handle chan

/-- Instance `Default for TemperatureSensor`: defers to `new`. -/
def default (chan : Ptr) : TemperatureSensor :=
  new chan

/-- Method `as_channel`: a reference to the underlying sensor handle. -/
def as_channel (s : TemperatureSensor) : Ptr :=
  s.chan

/-- Method `Phidget::as_handle`: the channel handle cast to a generic
`PhidgetHandle`. -/
def as_handle (s : TemperatureSensor) : Ptr :=
  s.chan

/-- Method `temperature`: initialises the out-parameter to `0.0`, calls
`PhidgetTemperatureSensor_getTemperature` on `self.chan` (modelled by the
oracle `ffi`), routes the return code through `ReturnCode::result` with `?`,
and on success returns the value the call left in the out-parameter. -/
def temperature (s : TemperatureSensor) (ffi : FfiCall f64) : Except Int f64 :=
  match ReturnCode.result ffi.code with
  | Except.error e => Except.error e
  | Except.ok _ => Except.ok ffi.out

/-- Method `set_thermocouple_type`: calls
`PhidgetTemperatureSensor_setThermocoupleType(self.chan, ty)` and returns the
translated return code; no field of `self` is touched. -/
def set_thermocouple_type (s : TemperatureSensor) (ty : ThermocoupleType)
    (code : Int) : Except Int Unit × TemperatureSensor :=
  (ReturnCode.result code, s)

/-- Method `get_thermocouple_type`: initialises the out-parameter to `0`, calls
`PhidgetTemperatureSensor_getThermocoupleType`, routes the code through
`ReturnCode::result` with `?`, and on success returns the written value. -/
def get_thermocouple_type (s : TemperatureSensor)
    (ffi : FfiCall ThermocoupleType) : Except Int ThermocoupleType :=
  match ReturnCode.result ffi.code with
  | Except.error e => Except.error e
  | Except.ok _ => Except.ok ffi.out

/-- Method `get_min_temperature`: same shape over
`PhidgetTemperatureSensor_getMinTemperature`. -/
def get_min_temperature (s : TemperatureSensor) (ffi : FfiCall f64) :
    Except Int f64 :=
  match ReturnCode.result ffi.code with
  | Except.error e => Except.error e
  | Except.ok _ => Except.ok ffi.out

/-- Method `get_max_temperature`: same shape over
`PhidgetTemperatureSensor_getMaxTemperature`. -/
def get_max_temperature (s : TemperatureSensor) (ffi : FfiCall f64) :
    Except Int f64 :=
  match ReturnCode.result ffi.code with
  | Except.error e => Except.error e
  | Except.ok _ => Except.ok ffi.out

/-- Method `set_on_temperature_change_handler`: double-boxes the callback into a
fresh context pointer, stores it in `self.cb` *before* the vendor call, then
registers it with
`PhidgetTemperatureSensor_setOnTemperatureChangeHandler` and returns the
translated return code.  Note the previously stored `self.cb` pointer is
overwritten, not freed, and the field is updated even when the vendor call
fails. -/
def set_on_temperature_change_handler (s : TemperatureSensor) (h : Heap)
    (code : Int) : Except Int Unit × TemperatureSensor × Heap :=
  let (ctx, h1) := h.alloc
  let s1 := { s with cb := some ctx }
  (ReturnCode.result code, s1, h1)

end TemperatureSensor

namespace phidget

/-- Modelled from the spec: the generic attach-handler registration
`crate::phidget::set_on_attach_handler` belongs to the excluded "device
discovery/attachment subsystem … treated as external collaborators"; it
heap-allocates a double-boxed context for the callback, registers it with the
native library on the phidget's handle, and returns the context pointer on
success, the translated error on failure.  It does not modify the sensor. -/
def set_on_attach_handler (h : Heap) (code : Int) : Except Int Ptr × Heap :=
  let (ctx, h1) := h.alloc
  match ReturnCode.result code with
  | Except.ok _ => (Except.ok ctx, h1)
  | Except.error e => (Except.error e, h1)

/-- Modelled from the spec: `crate::phidget::set_on_detach_handler`, the
mirror collaborator for detach callbacks. -/
def set_on_detach_handler (h : Heap) (code : Int) : Except Int Ptr × Heap :=
  let (ctx, h1) := h.alloc
  match ReturnCode.result code with
  | Except.ok _ => (Except.ok ctx, h1)
  | Except.error e => (Except.error e, h1)

end phidget

namespace TemperatureSensor

/-- Method `set_on_attach_handler`: forwards to the `crate::phidget` helper with `?`;
on success stores the context pointer the helper returned in
`self.attach_cb`, on failure returns the error with `self` untouched. -/
def set_on_attach_handler (s : TemperatureSensor) (h : Heap) (code : Int) :
    Except Int Unit × TemperatureSensor × Heap :=
  match phidget.set_on_attach_handler h code with
  | (Except.ok ctx, h1) => (Except.ok (), { s with attach_cb := some ctx }, h1)
  | (Except.error e, h1) => (Except.error e, s, h1)

/-- Method `set_on_detach_handler`: forwards to the `crate::phidget` helper with `?`;
on success stores the context pointer the helper returned in
`self.detach_cb`, on failure returns the error with `self` untouched. -/
def set_on_detach_handler (s : TemperatureSensor) (h : Heap) (code : Int) :
    Except Int Unit × TemperatureSensor × Heap :=
  match phidget.set_on_detach_handler h code with
  | (Except.ok ctx, h1) => (Except.ok (), { s with detach_cb := some ctx }, h1)
  | (Except.error e, h1) => (Except.error e, s, h1)

/-- The context pointers stored on a sensor, in the order `Drop` releases
them: `cb`, then `attach_cb`, then `detach_cb`. -/
def storedCtxs (s : TemperatureSensor) : List Ptr :=
  s.cb.toList ++ s.attach_cb.toList ++ s.detach_cb.toList

/-- Destructor `Drop for TemperatureSensor`, restricted to its effect on the context
heap: after closing the channel if open and deleting the channel handle (both
vendor-side, not context-heap effects), it takes each of `cb`, `attach_cb`
and `detach_cb` and releases it through `crate::drop_cb`. -/
def drop (s : TemperatureSensor) (h : Heap) : Heap :=
  let h1 := drop_cb h s.cb
  let h2 := drop_cb h1 s.attach_cb
  drop_cb h2 s.detach_cb

end TemperatureSensor

/-- Observable events of native-boundary code: invoking a user callback on a
channel with a temperature, freeing a callback context, closing a channel,
deleting a channel handle. -/
inductive Event where
  | invoke (chan : Ptr) (ctx : Ptr) (temperature : f64)
  | freeCtx (ctx : Ptr)
  | closeChan (chan : Ptr)
  | deleteChan (chan : Ptr)
deriving Repr, DecidableEq

namespace TemperatureSensor

/-- The trampoline `on_temperature_change`, as the list of events it emits:
if the context pointer is null it does nothing; otherwise it dereferences the
context to the user callback and invokes it on a temporary
`TemperatureSensor` built with `Self::from(chan)` — which is then leaked with
`mem::forget`, so the temporary's `Drop` (and with it any close, delete or
free) never runs and no further event is emitted. -/
def on_temperature_change (chan : Ptr) (ctx : Ptr) (t : f64) : List Event :=
  if ctx ≠ 0 then [Event.invoke chan ctx t] else []

/-- The events `Drop for TemperatureSensor` would emit for a sensor `s`
(`isOpen` is what `self.is_open()` reports): close if open, delete the
channel handle, then free each stored context. -/
def dropEvents (s : TemperatureSensor) (isOpen : Bool) : List Event :=
  (if isOpen then [Event.closeChan s.chan] else [])
    ++ [Event.deleteChan s.chan]
    ++ (storedCtxs s).map Event.freeCtx

end TemperatureSensor

/-- One call to the public interface of the module, carrying the oracle for
the vendor call it performs. -/
inductive Op where
  | readTemperature (ffi : FfiCall f64)
  | setThermocoupleType (ty : ThermocoupleType) (code : Int)
  | getThermocoupleType (ffi : FfiCall ThermocoupleType)
  | getMinTemperature (ffi : FfiCall f64)
  | getMaxTemperature (ffi : FfiCall f64)
  | setTempHandler (code : Int)
  | setAttachHandler (code : Int)
  | setDetachHandler (code : Int)
deriving Repr

/-- The state effect of one public call on the sensor and the context heap
(getters and `set_thermocouple_type` touch neither). -/
def step (s : TemperatureSensor) (h : Heap) : Op → TemperatureSensor × Heap
  | Op.readTemperature _ => (s, h)
  | Op.setThermocoupleType _ _ => (s, h)
  | Op.getThermocoupleType _ => (s, h)
  | Op.getMinTemperature _ => (s, h)
  | Op.getMaxTemperature _ => (s, h)
  | Op.setTempHandler code =>
      (TemperatureSensor.set_on_temperature_change_handler s h code).2
  | Op.setAttachHandler code =>
      (TemperatureSensor.set_on_attach_handler s h code).2
  | Op.setDetachHandler code =>
      (TemperatureSensor.set_on_detach_handler s h code).2

/-- Runs a sequence of public calls. -/
def runOps (s : TemperatureSensor) (h : Heap) : List Op → TemperatureSensor × Heap
  | [] => (s, h)
  | op :: ops => runOps (step s h op).1 (step s h op).2 ops

/-- A full lifetime of one sensor: construct it with `new`, run any sequence
of public calls, then `Drop` it; the result is the final context heap. -/
def lifecycle (chan : Ptr) (ops : List Op) : Heap :=
  TemperatureSensor.drop (runOps (TemperatureSensor.new chan) Heap.init ops).1
    (runOps (TemperatureSensor.new chan) Heap.init ops).2

/-! ### The module's public surface -/

/-- Hardware channel (device) types defined by this module: the source
declares exactly one public device struct, `TemperatureSensor`. -/
inductive DeviceType where
  | temperatureSensor
deriving Repr, DecidableEq

/-- All public device types of the module, in declaration order. -/
def publicDeviceTypes : List DeviceType := [DeviceType.temperatureSensor]

/-- Enumeration of the public operations the module defines (construction,
reading, configuration and handler registration), one constructor per public
function of the source module. -/
inductive PublicItem where
  | new_item
  | as_channel_item
  | temperature_item
  | set_on_temperature_change_item
  | set_on_attach_item
  | set_on_detach_item
  | set_thermocouple_type_item
  | get_thermocouple_type_item
  | get_min_temperature_item
  | get_max_temperature_item
deriving Repr, DecidableEq

/-- The channel type a public operation operates on: in the source every one
of them is a method of (or constructor for) `TemperatureSensor`. -/
def PublicItem.deviceType : PublicItem → DeviceType :=
  fun _ => DeviceType.temperatureSensor

/-! ### Heap invariant for a live sensor -/

/-- A context field is valid for heap `h`: either unset, or a non-null
address already handed out by the allocator. -/
def ctxOk (h : Heap) : Option Ptr → Prop
  | none => True
  | some p => 1 ≤ p ∧ p < h.next

/-- Two context fields, when both set, hold different addresses. -/
def Distinct2 : Option Ptr → Option Ptr → Prop
  | some p, some q => p ≠ q
  | _, _ => True

/-- Invariant of a live sensor and the context heap: nothing freed yet, the
allocator cursor is past the null address, each stored context is a valid
allocated address, and the three contexts are pairwise distinct. -/
def Inv (s : TemperatureSensor) (h : Heap) : Prop :=
  h.freed = [] ∧ 1 ≤ h.next ∧
  ctxOk h s.cb ∧ ctxOk h s.attach_cb ∧ ctxOk h s.detach_cb ∧
  Distinct2 s.cb s.attach_cb ∧ Distinct2 s.cb s.detach_cb ∧
  Distinct2 s.attach_cb s.detach_cb

lemma ctxOk_mono {h h' : Heap} (hle : h.next ≤ h'.next) (o : Option Ptr)
    (ho : ctxOk h o) : ctxOk h' o := by
  cases o with
  | none => trivial
  | some p =>
      simp only [ctxOk] at ho ⊢
      exact ⟨ho.1, lt_of_lt_of_le ho.2 hle⟩

lemma distinct_fresh {h : Heap} {o : Option Ptr} (ho : ctxOk h o) :
    Distinct2 o (some h.next) ∧ Distinct2 (some h.next) o := by
  cases o with
  | none => exact ⟨trivial, trivial⟩
  | some p =>
      simp only [ctxOk] at ho
      exact ⟨Nat.ne_of_lt ho.2, (Nat.ne_of_lt ho.2).symm⟩

lemma inv_new (chan : Ptr) : Inv (TemperatureSensor.new chan) Heap.init :=
  ⟨rfl, le_refl 1, trivial, trivial, trivial, trivial, trivial, trivial⟩

lemma inv_step {s : TemperatureSensor} {h : Heap} (hinv : Inv s h) (op : Op) :
    Inv (step s h op).1 (step s h op).2 := by
  obtain ⟨hf, hn, hcb, hat, hdt, d1, d2, d3⟩ := hinv
  cases op with
  | readTemperature ffi => exact ⟨hf, hn, hcb, hat, hdt, d1, d2, d3⟩
  | setThermocoupleType ty code => exact ⟨hf, hn, hcb, hat, hdt, d1, d2, d3⟩
  | getThermocoupleType ffi => exact ⟨hf, hn, hcb, hat, hdt, d1, d2, d3⟩
  | getMinTemperature ffi => exact ⟨hf, hn, hcb, hat, hdt, d1, d2, d3⟩
  | getMaxTemperature ffi => exact ⟨hf, hn, hcb, hat, hdt, d1, d2, d3⟩
  | setTempHandler code =>
      simp only [step, TemperatureSensor.set_on_temperature_change_handler,
        Heap.alloc]
      exact ⟨hf, le_trans hn (Nat.le_succ _), ⟨hn, Nat.lt_succ_self _⟩,
        ctxOk_mono (Nat.le_succ _) _ hat, ctxOk_mono (Nat.le_succ _) _ hdt,
        (distinct_fresh hat).2, (distinct_fresh hdt).2, d3⟩
  | setAttachHandler code =>
      simp only [step, TemperatureSensor.set_on_attach_handler,
        phidget.set_on_attach_handler, Heap.alloc, ReturnCode.result]
      by_cases hc : code = 0 <;> simp only [hc, if_true, if_false, reduceIte]
      · exact ⟨hf, le_trans hn (Nat.le_succ _),
          ctxOk_mono (Nat.le_succ _) _ hcb, ⟨hn, Nat.lt_succ_self _⟩,
          ctxOk_mono (Nat.le_succ _) _ hdt, (distinct_fresh hcb).1,
          d2, (distinct_fresh hdt).2⟩
      · exact ⟨hf, le_trans hn (Nat.le_succ _),
          ctxOk_mono (Nat.le_succ _) _ hcb, ctxOk_mono (Nat.le_succ _) _ hat,
          ctxOk_mono (Nat.le_succ _) _ hdt, d1, d2, d3⟩
  | setDetachHandler code =>
      simp only [step, TemperatureSensor.set_on_detach_handler,
        phidget.set_on_detach_handler, Heap.alloc, ReturnCode.result]
      by_cases hc : code = 0 <;> simp only [hc, if_true, if_false, reduceIte]
      · exact ⟨hf, le_trans hn (Nat.le_succ _),
          ctxOk_mono (Nat.le_succ _) _ hcb, ctxOk_mono (Nat.le_succ _) _ hat,
          ⟨hn, Nat.lt_succ_self _⟩, d1, (distinct_fresh hcb).1,
          (distinct_fresh hat).1⟩
      · exact ⟨hf, le_trans hn (Nat.le_succ _),
          ctxOk_mono (Nat.le_succ _) _ hcb, ctxOk_mono (Nat.le_succ _) _ hat,
          ctxOk_mono (Nat.le_succ _) _ hdt, d1, d2, d3⟩

lemma inv_runOps {s : TemperatureSensor} {h : Heap} (hinv : Inv s h)
    (ops : List Op) : Inv (runOps s h ops).1 (runOps s h ops).2 := by
  induction ops generalizing s h with
  | nil => exact hinv
  | cons op ops ih =>
      simp only [runOps]
      exact ih (inv_step hinv op)

lemma drop_cb_eq (h : Heap) (o : Option Ptr) :
    drop_cb h o = ⟨h.next, h.freed ++ o.toList⟩ := by
  cases o <;> simp [drop_cb, Option.toList]

lemma drop_eq (s : TemperatureSensor) (h : Heap) :
    TemperatureSensor.drop s h
      = ⟨h.next, h.freed ++ TemperatureSensor.storedCtxs s⟩ := by
  simp [TemperatureSensor.drop, drop_cb_eq, TemperatureSensor.storedCtxs,
    List.append_assoc]

lemma storedCtxs_nodup {s : TemperatureSensor} {h : Heap} (hinv : Inv s h) :
    (TemperatureSensor.storedCtxs s).Nodup := by
  obtain ⟨-, -, -, -, -, d1, d2, d3⟩ := hinv
  obtain ⟨c, cb, acb, dcb⟩ := s
  cases cb <;> cases acb <;> cases dcb <;>
    simp_all [TemperatureSensor.storedCtxs, Distinct2]

lemma storedCtxs_bound {s : TemperatureSensor} {h : Heap} (hinv : Inv s h) :
    ∀ p ∈ TemperatureSensor.storedCtxs s, 1 ≤ p ∧ p < h.next := by
  obtain ⟨-, -, hcb, hat, hdt, -, -, -⟩ := hinv
  obtain ⟨c, cb, acb, dcb⟩ := s
  cases cb <;> cases acb <;> cases dcb <;>
    simp_all [TemperatureSensor.storedCtxs, ctxOk]

lemma getter_ok_iff (code out v : Int) :
    (match ReturnCode.result code with
     | Except.error e => Except.error e
     | Except.ok _ => Except.ok out) = Except.ok v ↔ code = 0 ∧ v = out := by
  by_cases hc : code = 0 <;> simp [ReturnCode.result, hc, eq_comm]

lemma getter_map_eq (code out : Int) :
    (match ReturnCode.result code with
     | Except.error e => Except.error e
     | Except.ok _ => Except.ok out)
      = (ReturnCode.result code).map fun _ => out := by
  by_cases hc : code = 0 <;> simp [ReturnCode.result, hc, Except.map]

lemma getter_err_iff (code out : Int) :
    (∃ e, (match ReturnCode.result code with
     | Except.error e => Except.error e
     | Except.ok _ => Except.ok out) = Except.error e) ↔ code ≠ 0 := by
  by_cases hc : code = 0 <;> simp [ReturnCode.result, hc]

lemma returnCode_err_iff (c e : Int) :
    ReturnCode.result c = Except.error e ↔ c ≠ 0 ∧ e = c := by
  by_cases hc : c = 0 <;> simp [ReturnCode.result, hc, eq_comm]

lemma result_err_exists (c : Int) :
    (∃ e, ReturnCode.result c = Except.error e) ↔ c ≠ 0 := by
  by_cases hc : c = 0 <;> simp [ReturnCode.result, hc]

/-! ### Claims -/

/-- C3: every value-returning operation (`temperature`,
`get_thermocouple_type`, `get_min_temperature`, `get_max_temperature`)
delegates to a single vendor call and, on success, returns exactly the value
that call wrote into the out-parameter — no conditioning, transformation or
fabricated reading is added. -/
theorem C3_getters_return_exact_ffi_value (s : TemperatureSensor)
    (fT fmin fmax : FfiCall f64) (fty : FfiCall ThermocoupleType) :
    (∀ v, s.temperature fT = Except.ok v ↔ fT.code = 0 ∧ v = fT.out) ∧
    (∀ v, s.get_thermocouple_type fty = Except.ok v ↔ fty.code = 0 ∧ v = fty.out) ∧
    (∀ v, s.get_min_temperature fmin = Except.ok v ↔ fmin.code = 0 ∧ v = fmin.out) ∧
    (∀ v, s.get_max_temperature fmax = Except.ok v ↔ fmax.code = 0 ∧ v = fmax.out) :=
  ⟨fun v => getter_ok_iff fT.code fT.out v,
   fun v => getter_ok_iff fty.code fty.out v,
   fun v => getter_ok_iff fmin.code fmin.out v,
   fun v => getter_ok_iff fmax.code fmax.out v⟩

/-- C3 witness: at a concrete input, a successful vendor call writing `21`
makes `temperature` return exactly `Except.ok 21`. -/
theorem C3_witness :
    TemperatureSensor.temperature (TemperatureSensor.from_handle 3) ⟨0, 21⟩
      = Except.ok 21 :=
  ((C3_getters_return_exact_ffi_value (TemperatureSensor.from_handle 3)
      ⟨0, 21⟩ ⟨0, 0⟩ ⟨0, 0⟩ ⟨0, 0⟩).1 21).2 ⟨rfl, rfl⟩

/-- C4: every vendor-invoking operation returns `Err` exactly when the vendor
return code is nonzero, and the translation is the external
`ReturnCode::result`: each operation's outcome is literally `ReturnCode`'s
translation of the code (with the success value mapped in), and
`ReturnCode.result` itself errs with the original code iff the code is
nonzero. -/
theorem C4_err_iff_vendor_failure (s : TemperatureSensor) (h : Heap)
    (fT fmin fmax : FfiCall f64) (fty : FfiCall ThermocoupleType)
    (ty code hcode : Int) :
    (s.temperature fT = (ReturnCode.result fT.code).map fun _ => fT.out) ∧
    (s.get_thermocouple_type fty = (ReturnCode.result fty.code).map fun _ => fty.out) ∧
    (s.get_min_temperature fmin = (ReturnCode.result fmin.code).map fun _ => fmin.out) ∧
    (s.get_max_temperature fmax = (ReturnCode.result fmax.code).map fun _ => fmax.out) ∧
    ((s.set_thermocouple_type ty code).1 = ReturnCode.result code) ∧
    ((s.set_on_temperature_change_handler h hcode).1 = ReturnCode.result hcode) ∧
    (∀ c e : Int, ReturnCode.result c = Except.error e ↔ c ≠ 0 ∧ e = c) ∧
    ((∃ e, s.temperature fT = Except.error e) ↔ fT.code ≠ 0) ∧
    ((∃ e, s.get_thermocouple_type fty = Except.error e) ↔ fty.code ≠ 0) ∧
    ((∃ e, s.get_min_temperature fmin = Except.error e) ↔ fmin.code ≠ 0) ∧
    ((∃ e, s.get_max_temperature fmax = Except.error e) ↔ fmax.code ≠ 0) ∧
    ((∃ e, (s.set_thermocouple_type ty code).1 = Except.error e) ↔ code ≠ 0) ∧
    ((∃ e, (s.set_on_temperature_change_handler h hcode).1 = Except.error e)
        ↔ hcode ≠ 0) :=
  ⟨getter_map_eq fT.code fT.out, getter_map_eq fty.code fty.out,
   getter_map_eq fmin.code fmin.out, getter_map_eq fmax.code fmax.out,
   rfl, rfl, returnCode_err_iff,
   getter_err_iff fT.code fT.out, getter_err_iff fty.code fty.out,
   getter_err_iff fmin.code fmin.out, getter_err_iff fmax.code fmax.out,
   result_err_exists code, result_err_exists hcode⟩

/-- C4 witness: at a concrete input with failing vendor code `5`,
`temperature` returns an error. -/
theorem C4_witness :
    (5 : Int) ≠ 0 ∧
    (∃ e, TemperatureSensor.temperature (TemperatureSensor.from_handle 3) ⟨5, 0⟩
        = Except.error e) :=
  ⟨by decide,
   (C4_err_iff_vendor_failure (TemperatureSensor.from_handle 3) Heap.init
      ⟨5, 0⟩ ⟨0, 0⟩ ⟨0, 0⟩ ⟨0, 0⟩ 1 0 0).2.2.2.2.2.2.2.1.mpr (by decide)⟩

/-- C8: every freshly constructed `TemperatureSensor` — via `new`,
`Default::default` or `From<TemperatureSensorHandle>` — starts with `cb`,
`attach_cb` and `detach_cb` all `None`. -/
theorem C8_fresh_sensor_no_callbacks (chan : Ptr) :
    ((TemperatureSensor.from_handle chan).cb = none ∧
     (TemperatureSensor.from_handle chan).attach_cb = none ∧
     (TemperatureSensor.from_handle chan).detach_cb = none) ∧
    ((TemperatureSensor.new chan).cb = none ∧
     (TemperatureSensor.new chan).attach_cb = none ∧
     (TemperatureSensor.new chan).detach_cb = none) ∧
    ((TemperatureSensor.default chan).cb = none ∧
     (TemperatureSensor.default chan).attach_cb = none ∧
     (TemperatureSensor.default chan).detach_cb = none) :=
  ⟨⟨rfl, rfl, rfl⟩, ⟨rfl, rfl, rfl⟩, ⟨rfl, rfl, rfl⟩⟩

/-- C9: the module exposes exactly one hardware channel type — its only
public device type is `TemperatureSensor` — and every public operation it
defines operates on that single temperature-sensor channel. -/
theorem C9_single_channel_type :
    publicDeviceTypes = [DeviceType.temperatureSensor] ∧
    (∀ d : DeviceType, d = DeviceType.temperatureSensor) ∧
    (∀ i : PublicItem, i.deviceType = DeviceType.temperatureSensor) := by
  refine ⟨rfl, fun d => ?_, fun i => rfl⟩
  cases d
  rfl

/-- C5: attach and detach handler registration is fully delegated to the
generic Phidget subsystem: each method leaves `chan`, `cb` and the other
callback field unchanged, and it forwards to the `crate::phidget` helper —
on the helper's success it stores exactly the context pointer the helper
returned in `attach_cb` (resp. `detach_cb`), on the helper's failure it
returns that error with the sensor untouched. -/
theorem C5_attach_detach_delegation (s : TemperatureSensor) (h : Heap)
    (code : Int) :
    ((s.set_on_attach_handler h code).2.1.chan = s.chan) ∧
    ((s.set_on_attach_handler h code).2.1.cb = s.cb) ∧
    ((s.set_on_attach_handler h code).2.1.detach_cb = s.detach_cb) ∧
    (∀ ctx h1, phidget.set_on_attach_handler h code = (Except.ok ctx, h1) →
        s.set_on_attach_handler h code
          = (Except.ok (), { s with attach_cb := some ctx }, h1)) ∧
    (∀ e h1, phidget.set_on_attach_handler h code = (Except.error e, h1) →
        s.set_on_attach_handler h code = (Except.error e, s, h1)) ∧
    ((s.set_on_detach_handler h code).2.1.chan = s.chan) ∧
    ((s.set_on_detach_handler h code).2.1.cb = s.cb) ∧
    ((s.set_on_detach_handler h code).2.1.attach_cb = s.attach_cb) ∧
    (∀ ctx h1, phidget.set_on_detach_handler h code = (Except.ok ctx, h1) →
        s.set_on_detach_handler h code
          = (Except.ok (), { s with detach_cb := some ctx }, h1)) ∧
    (∀ e h1, phidget.set_on_detach_handler h code = (Except.error e, h1) →
        s.set_on_detach_handler h code = (Except.error e, s, h1)) := by
  by_cases hc : code = 0 <;>
    simp [TemperatureSensor.set_on_attach_handler,
      TemperatureSensor.set_on_detach_handler, phidget.set_on_attach_handler,
      phidget.set_on_detach_handler, ReturnCode.result, Heap.alloc, hc]

/-- C5 witness: at a concrete input with a successful vendor call, attach
registration stores the helper's returned context pointer `1`. -/
theorem C5_witness :
    TemperatureSensor.set_on_attach_handler (TemperatureSensor.from_handle 3)
        Heap.init 0
      = (Except.ok (),
         { TemperatureSensor.from_handle 3 with attach_cb := some 1 },
         ⟨2, []⟩) :=
  (C5_attach_detach_delegation (TemperatureSensor.from_handle 3) Heap.init
      0).2.2.2.1 1 ⟨2, []⟩ rfl

/-- C6: error atomicity differs between handler-registration operations —
a failing attach or detach registration leaves the sensor (so its
`attach_cb` / `detach_cb` field) unchanged, but a failing
`set_on_temperature_change_handler` has already overwritten `cb` with the
freshly allocated context pointer. -/
theorem C6_error_atomicity_asymmetry (s : TemperatureSensor) (h : Heap)
    (e : Int) (he : e ≠ 0) :
    ((s.set_on_temperature_change_handler h e).1 = Except.error e ∧
     (s.set_on_temperature_change_handler h e).2.1.cb = some (h.alloc).1) ∧
    ((s.set_on_attach_handler h e).1 = Except.error e ∧
     (s.set_on_attach_handler h e).2.1 = s) ∧
    ((s.set_on_detach_handler h e).1 = Except.error e ∧
     (s.set_on_detach_handler h e).2.1 = s) := by
  simp [TemperatureSensor.set_on_temperature_change_handler,
    TemperatureSensor.set_on_attach_handler,
    TemperatureSensor.set_on_detach_handler, phidget.set_on_attach_handler,
    phidget.set_on_detach_handler, ReturnCode.result, Heap.alloc, he]

/-- C6 witness: at vendor code `1` (failure), the temperature-change
registration has overwritten `cb` while the attach registration left the
sensor unchanged. -/
theorem C6_witness :
    (1 : Int) ≠ 0 ∧
    ((TemperatureSensor.from_handle 5).set_on_temperature_change_handler
        Heap.init 1).2.1.cb = some 1 ∧
    ((TemperatureSensor.from_handle 5).set_on_attach_handler Heap.init 1).2.1
        = TemperatureSensor.from_handle 5 := by
  have hmain := C6_error_atomicity_asymmetry (TemperatureSensor.from_handle 5)
    Heap.init 1 (by decide)
  exact ⟨by decide, hmain.1.2, hmain.2.1.2⟩

/-- C7: the trampoline `on_temperature_change` invokes the registered
callback only when the context pointer is non-null (emitting nothing when it
is null) and never frees a context nor closes or deletes a channel handle —
while an actual `Drop` of the temporary sensor built from the raw handle
would have deleted that handle, which `mem::forget` prevents. -/
theorem C7_trampoline_null_guard_and_forget (chan ctx : Ptr) (t : f64) :
    (ctx = 0 → TemperatureSensor.on_temperature_change chan ctx t = []) ∧
    (ctx ≠ 0 → TemperatureSensor.on_temperature_change chan ctx t
        = [Event.invoke chan ctx t]) ∧
    (∀ p, Event.freeCtx p ∉ TemperatureSensor.on_temperature_change chan ctx t) ∧
    (∀ p, Event.closeChan p ∉ TemperatureSensor.on_temperature_change chan ctx t) ∧
    (∀ p, Event.deleteChan p ∉ TemperatureSensor.on_temperature_change chan ctx t) ∧
    (∀ b, Event.deleteChan chan
        ∈ TemperatureSensor.dropEvents (TemperatureSensor.from_handle chan) b) := by
  refine ⟨fun h0 => ?_, fun h0 => ?_, fun p => ?_, fun p => ?_, fun p => ?_,
    fun b => ?_⟩
  · simp [TemperatureSensor.on_temperature_change, h0]
  · simp [TemperatureSensor.on_temperature_change, h0]
  · by_cases h0 : ctx = 0 <;> simp [TemperatureSensor.on_temperature_change, h0]
  · by_cases h0 : ctx = 0 <;> simp [TemperatureSensor.on_temperature_change, h0]
  · by_cases h0 : ctx = 0 <;> simp [TemperatureSensor.on_temperature_change, h0]
  · cases b <;>
      simp [TemperatureSensor.dropEvents, TemperatureSensor.storedCtxs,
        TemperatureSensor.from_handle]

/-- C7 witness: at concrete inputs, a non-null context `3` yields exactly the
invocation event and a null context yields no event. -/
theorem C7_witness :
    (3 : Ptr) ≠ 0 ∧
    TemperatureSensor.on_temperature_change 9 3 21 = [Event.invoke 9 3 21] ∧
    TemperatureSensor.on_temperature_change 9 0 21 = [] :=
  ⟨by decide, (C7_trampoline_null_guard_and_forget 9 3 21).2.1 (by decide),
   (C7_trampoline_null_guard_and_forget 9 0 21).1 rfl⟩

/-- C1 counterexample: registering a temperature-change handler twice leaks
the first context.  Running `new`, two `set_on_temperature_change_handler`
calls (both vendor-successful) and `Drop`: after the first call the sensor
stores context `1`, yet the whole lifetime frees only `[2]` — context `1`,
heap-allocated and registered, is never freed, contradicting the claim that
every registered context is freed and that re-registration does not leak. -/
theorem C1_counterexample_rereg_leaks :
    (runOps (TemperatureSensor.new 7) Heap.init [Op.setTempHandler 0]).1.cb
        = some 1 ∧
    (lifecycle 7 [Op.setTempHandler 0, Op.setTempHandler 0]).freed = [2] ∧
    1 ∉ (lifecycle 7 [Op.setTempHandler 0, Op.setTempHandler 0]).freed := by
  decide

/-- C1 (amended): every callback context still stored on the sensor when it
is dropped is freed exactly once, by `Drop`, and no context is ever freed
twice; but registering a new handler of the same kind overwrites the stored
context pointer without freeing it (the previously registered context of
that kind is leaked), and the temperature-change registration stores the new
pointer even when the vendor call fails. -/
theorem C1_drop_frees_stored_contexts_once (chan : Ptr) (ops : List Op)
    (s : TemperatureSensor) (h : Heap) (code : Int) :
    (lifecycle chan ops).freed
        = TemperatureSensor.storedCtxs
            (runOps (TemperatureSensor.new chan) Heap.init ops).1 ∧
    (lifecycle chan ops).freed.Nodup ∧
    (TemperatureSensor.set_on_temperature_change_handler s h code).2.2.freed
        = h.freed ∧
    (TemperatureSensor.set_on_temperature_change_handler s h code).2.1.cb
        = some (h.alloc).1 := by
  have hinv := inv_runOps (inv_new chan) ops
  refine ⟨?_, ?_, rfl, rfl⟩
  · simp [lifecycle, drop_eq, hinv.1]
  · simp only [lifecycle, drop_eq, hinv.1, List.nil_append]
    exact storedCtxs_nodup hinv

/-- C2: memory safety of the public interface over the callback contexts.
For every sequence of public calls between construction and `Drop`, the
lifetime frees no address twice (no double free), frees only non-null
addresses the allocator actually handed out (no invalid free or
null-pointer free), and the native trampoline dereferences no null context
(a null context produces no callback invocation). -/
theorem C2_no_double_free_no_invalid_free (chan : Ptr) (ops : List Op) :
    (lifecycle chan ops).freed.Nodup ∧
    (∀ p ∈ (lifecycle chan ops).freed, 1 ≤ p ∧ p < (lifecycle chan ops).next) ∧
    (∀ c : Ptr, ∀ t : f64, TemperatureSensor.on_temperature_change c 0 t = []) := by
  have hinv := inv_runOps (inv_new chan) ops
  refine ⟨?_, ?_, fun c t => ?_⟩
  · simp only [lifecycle, drop_eq, hinv.1, List.nil_append]
    exact storedCtxs_nodup hinv
  · simp only [lifecycle, drop_eq, hinv.1, List.nil_append]
    exact storedCtxs_bound hinv
  · simp [TemperatureSensor.on_temperature_change]

/-- C2 witness: on a concrete lifetime with four registrations the freed
trace has no duplicate and the trampoline ignores a null context. -/
theorem C2_witness :
    (lifecycle 7 [Op.setTempHandler 0, Op.setAttachHandler 0,
        Op.setDetachHandler 3, Op.setTempHandler 0]).freed.Nodup ∧
    TemperatureSensor.on_temperature_change 7 0 21 = [] :=
  ⟨(C2_no_double_free_no_invalid_free 7 [Op.setTempHandler 0,
      Op.setAttachHandler 0, Op.setDetachHandler 3, Op.setTempHandler 0]).1,
   (C2_no_double_free_no_invalid_free 7 []).2.2 7 21⟩
